import Mathlib

/-!
Shallow embedding of `src/components/script/dom/htmlscriptelement.rs`
(servo): the script-activation algorithm (`prepare`), the content
classifier (`is_javascript`), construction (`new_inherited`), the
already-started marker (`mark_already_started`) and the cloning hook
(`cloning_steps`), together with theorems about them.

The element's mutable flags become an explicit `ScriptState` record;
the read-only attribute/tree context becomes `ScriptEnv`; the external
URL parser, fetcher and text decoder become function fields of
`Collaborators`.  `prepare` is rendered as a pure function from the
state to the new state, the optional call to the execution collaborator
(the `(source, url)` pair handed to `evaluate_script_with_result`), and
the outcome label of the run.
-/

/-- Mutable per-element flags of `HTMLScriptElement`
(fields `already_started`, `parser_inserted`, `non_blocking`,
`ready_to_be_parser_executed`, lines 32-50 of the source). -/
structure ScriptState where
  already_started : Bool
  parser_inserted : Bool
  non_blocking : Bool
  ready_to_be_parser_executed : Bool
  deriving Repr, DecidableEq

/-- Creator argument of the constructor (`ElementCreator` in
`dom/element.rs`; only the comparison with `ParserCreated` matters). -/
inductive ElementCreator where
  | ParserCreated
  | ScriptCreated
  deriving Repr, DecidableEq, BEq

/-- Constructor `HTMLScriptElement::new_inherited` (source lines 59-68),
restricted to the flag fields it initialises:
`already_started = false`, `parser_inserted = (creator == ParserCreated)`,
`non_blocking = (creator != ParserCreated)`,
`ready_to_be_parser_executed = false`. -/
def new_inherited (creator : ElementCreator) : ScriptState :=
  { already_started := false
    parser_inserted := creator == ElementCreator.ParserCreated
    non_blocking := creator != ElementCreator.ParserCreated
    ready_to_be_parser_executed := false }

/-- Read-only context of one `prepare` run: the attributes and tree
facts the source reads through `Element`/`Node` (the `type`, `language`,
`async` and `src` attributes, the inline `Text()`, `is_in_doc`, and the
page's base URL). -/
structure ScriptEnv where
  type_attr : Option String
  language_attr : Option String
  async_attr : Bool
  src_attr : Option String
  text : String
  in_doc : Bool
  base_url : String

/-- External collaborators of `prepare`: `UrlParser::new().base_url(b).parse(s)`
(`none` models `Err`), `load_whole_resource` returning the metadata's
final URL and the byte payload (`none` models `Err`), and the total
UTF-8 decode with replacement (`UTF_8.decode(bytes, DecodeReplace)`). -/
structure Collaborators where
  parse_url : String → String → Option String
  fetch : String → Option (String × List Nat)
  decode : List Nat → String

/-- The HTML space characters used by servo's
`HTML_SPACE_CHARACTERS` (space, tab, line feed, form feed,
carriage return). -/
def HTML_SPACE_CHARACTERS : List Char := [' ', '\t', '\n', '\x0c', '\r']

/-- Character membership in `HTML_SPACE_CHARACTERS`. -/
def isHtmlSpace (c : Char) : Bool := HTML_SPACE_CHARACTERS.contains c

/-- Rust's `s.trim_chars(HTML_SPACE_CHARACTERS)`: drop the HTML space
characters from both ends of the string. -/
def trimHtmlSpace (s : String) : String :=
  String.mk (((s.toList.dropWhile isHtmlSpace).reverse.dropWhile isHtmlSpace).reverse)

/-- The static allow-list `SCRIPT_JS_MIMES` (source lines 91-108). -/
def SCRIPT_JS_MIMES : List String := [
  "application/ecmascript",
  "application/javascript",
  "application/x-ecmascript",
  "application/x-javascript",
  "text/ecmascript",
  "text/javascript",
  "text/javascript1.0",
  "text/javascript1.1",
  "text/javascript1.2",
  "text/javascript1.3",
  "text/javascript1.4",
  "text/javascript1.5",
  "text/jscript",
  "text/livescript",
  "text/x-ecmascript",
  "text/x-javascript"]

/-- The content classifier `is_javascript` (source lines 209-241), as a
function of the `type` and `language` attribute values.  A present empty
`type` is executable; a present non-empty `type` is trimmed of HTML
space characters and tested against `SCRIPT_JS_MIMES`; with no `type`,
a present empty `language` is executable, a present non-empty `language`
is tested as `"text/" ++ language` (no trimming); with neither
attribute, executable. -/
def is_javascript (type_attr language_attr : Option String) : Bool :=
  match type_attr with
  | some s =>
      if s.isEmpty then true
      else SCRIPT_JS_MIMES.contains (trimHtmlSpace s)
  | none =>
      match language_attr with
      | some s =>
          if s.isEmpty then true
          else SCRIPT_JS_MIMES.contains ("text/" ++ s)
      | none => true

/-- Outcome label of one `prepare` run (the spec's ephemeral
`ActivationOutcome`; the source expresses these as distinct `return`
points). -/
inductive ActivationOutcome where
  | Activated
  | AlreadyActivated
  | NotExecutableType
  | NoContent
  | DetachedFromDocument
  | FetchFailed
  | Aborted
  deriving Repr, DecidableEq

/-- Result of one `prepare` run: the element state afterwards, the
argument pair handed to `window.evaluate_script_with_result` if that
call was reached (`some (source, url)`), and the outcome label. -/
structure PrepareResult where
  state : ScriptState
  executed : Option (String × String)
  outcome : ActivationOutcome
  deriving Repr, DecidableEq

/-- Condition of the step-4 guard of `prepare` (source line 128):
inline text empty and no `src` attribute. -/
def contentGuardStops (env : ScriptEnv) : Bool :=
  env.text.length == 0 && !env.src_attr.isSome

/-- A run that is not stopped by the already-started guard passes the
content, detachment and classification guards exactly when this
predicate holds of the environment. -/
def passesClassification (env : ScriptEnv) : Bool :=
  !contentGuardStops env && env.in_doc && is_javascript env.type_attr env.language_attr

/-- State after steps 2 and 3 of `prepare` (source lines 117-125):
`parser_inserted` is cleared, and if it was set and the element has an
`async` attribute, `non_blocking` is set. -/
def afterBookkeeping (env : ScriptEnv) (st : ScriptState) : ScriptState :=
  let st1 : ScriptState := { st with parser_inserted := false }
  if st.parser_inserted && env.async_attr then { st1 with non_blocking := true } else st1

/-- State after step 8 of `prepare` (source lines 140-144): if the
element was parser-inserted, restore `parser_inserted` and clear
`non_blocking`. -/
def afterRestore (env : ScriptEnv) (st : ScriptState) : ScriptState :=
  let st2 := afterBookkeeping env st
  if st.parser_inserted then { st2 with parser_inserted := true, non_blocking := false } else st2

/-- State after step 9 of `prepare` (source line 146): the
already-started flag is set. -/
def afterMark (env : ScriptEnv) (st : ScriptState) : ScriptState :=
  { afterRestore env st with already_started := true }

/-- The `prepare` algorithm (source lines 111-207), with each
early `return` labelled by its outcome.  Step 1: stop if already
started.  Steps 2-3: insertion bookkeeping.  Step 4: stop if the inline
text is empty and there is no `src` attribute.  Step 5: stop if the
node is not in a document.  Steps 6-7: stop if `is_javascript` is
false.  Steps 8-9: restore flags and mark started.  Steps 14-15 and
the final match (source lines 172-206): resolve the source, stopping
without execution on an empty `src`, a URL parse failure or a fetch
failure; on success hand the decoded payload and the fetch's final URL
(or, with no `src`, the inline text and the base URL) to execution. -/
def prepare (env : ScriptEnv) (c : Collaborators) (st : ScriptState) : PrepareResult :=
  if st.already_started then
    { state := st, executed := none, outcome := ActivationOutcome.AlreadyActivated }
  else if contentGuardStops env then
    { state := afterBookkeeping env st, executed := none,
      outcome := ActivationOutcome.NoContent }
  else if !env.in_doc then
    { state := afterBookkeeping env st, executed := none,
      outcome := ActivationOutcome.DetachedFromDocument }
  else if !is_javascript env.type_attr env.language_attr then
    { state := afterBookkeeping env st, executed := none,
      outcome := ActivationOutcome.NotExecutableType }
  else
    match env.src_attr with
    | some src =>
        if src.isEmpty then
          { state := afterMark env st, executed := none,
            outcome := ActivationOutcome.NoContent }
        else
          match c.parse_url env.base_url src with
          | none =>
              { state := afterMark env st, executed := none,
                outcome := ActivationOutcome.FetchFailed }
          | some url =>
              match c.fetch url with
              | none =>
                  { state := afterMark env st, executed := none,
                    outcome := ActivationOutcome.FetchFailed }
              | some fr =>
                  { state := afterMark env st,
                    executed := some (c.decode fr.2, fr.1),
                    outcome := ActivationOutcome.Activated }
    | none =>
        { state := afterMark env st, executed := some (env.text, env.base_url),
          outcome := ActivationOutcome.Activated }

/-- The method `mark_already_started` (source lines 243-245). -/
def mark_already_started (st : ScriptState) : ScriptState :=
  { st with already_started := true }

/-- The hook `cloning_steps` (source lines 287-299), restricted to the
flag state of the source element and of the copy: if the source
element's already-started flag is set, `mark_already_started` is called
on the copy; nothing else is touched.  Returned as the pair
(source state afterwards, copy state afterwards). -/
def cloning_steps (src_st copy_st : ScriptState) : ScriptState × ScriptState :=
  if src_st.already_started then (src_st, mark_already_started copy_st)
  else (src_st, copy_st)

/-- Collaborators whose URL parser and fetcher always fail. -/
def collabFail : Collaborators :=
  { parse_url := fun _ _ => none
    fetch := fun _ => none
    decode := fun _ => "" }

/-- Collaborators that resolve a URL by appending it to the base, fetch
the bytes of "alert" from any URL (with that URL as the final URL), and
decode bytes as their character codes. -/
def collabOk : Collaborators :=
  { parse_url := fun base s => some (base ++ s)
    fetch := fun url => some (url, [97, 108, 101, 114, 116])
    decode := fun bytes => String.mk (bytes.map Char.ofNat) }

/-- Concrete environment: inline script "1+1" in a document, no
attributes. -/
def envInline : ScriptEnv :=
  { type_attr := none, language_attr := none, async_attr := false
    src_attr := none, text := "1+1", in_doc := true
    base_url := "http://example.test/" }

/-- Concrete environment: external script with src "foo.js" in a
document. -/
def envSrc : ScriptEnv :=
  { type_attr := none, language_attr := none, async_attr := false
    src_attr := some "foo.js", text := "", in_doc := true
    base_url := "http://example.test/page/" }

/-- Concrete environment: empty inline text, no src, async attribute
present, in a document. -/
def envEmptyAsync : ScriptEnv :=
  { type_attr := none, language_attr := none, async_attr := true
    src_attr := none, text := "", in_doc := true
    base_url := "http://example.test/" }

/-- Concrete environment: inline script with an executable type, NOT in
a document. -/
def envDetached : ScriptEnv :=
  { type_attr := some "text/javascript", language_attr := none, async_attr := false
    src_attr := none, text := "1+1", in_doc := false
    base_url := "http://example.test/" }

/-- Freshly constructed programmatically created element. -/
def stFresh : ScriptState := new_inherited ElementCreator.ScriptCreated

/-- Freshly constructed parser-created element. -/
def stParserMade : ScriptState := new_inherited ElementCreator.ParserCreated

/-! Theorems.  Claim numbering follows CLAIMS.json. -/

/-- C3 counterexample: the classifier does NOT treat a whitespace-only
(non-empty) `type` attribute value as executable — on the concrete
input `type = " "` it returns false, refuting the claim that an
empty-after-trim value yields true. -/
theorem is_javascript_whitespace_type_false :
    is_javascript (some " ") none = false := by decide

/-- C3 (amended): a present `type` attribute that is literally the
empty string is classified executable; a present non-empty but
whitespace-only `type` value is trimmed to the empty string, which is
not in the allow-list, so it is classified NOT executable. -/
theorem is_javascript_empty_type_vs_whitespace :
    (∀ l, is_javascript (some "") l = true) ∧
    (∀ l s, s.isEmpty = false → (∀ ch ∈ s.toList, isHtmlSpace ch = true) →
      is_javascript (some s) l = false) := by
  constructor
  · intro l
    rfl
  · intro l s hne hall
    have h1 : s.data.dropWhile isHtmlSpace = [] :=
      List.dropWhile_eq_nil_iff.mpr (by simpa using hall)
    have h2 : trimHtmlSpace s = "" := by
      simp [trimHtmlSpace, h1]
    simp only [is_javascript, hne, Bool.false_eq_true, if_false, h2]
    decide

/-- C3 witness for the amended theorem, at the concrete whitespace-only
input `" "` and the empty input `""`. -/
theorem is_javascript_empty_type_vs_whitespace_witness :
    is_javascript (some "") none = true ∧ is_javascript (some " ") none = false :=
  ⟨is_javascript_empty_type_vs_whitespace.1 none,
   is_javascript_empty_type_vs_whitespace.2 none " " (by decide) (by decide)⟩

/-- C4 counterexample: a programmatically created element starts with
`non_blocking = true`, not false — the constructor sets
`non_blocking = (creator != ParserCreated)`. -/
theorem new_inherited_script_created_non_blocking :
    (new_inherited ElementCreator.ScriptCreated).non_blocking = true := rfl

/-- C4 (amended): a newly constructed script element starts with
`already_started` and `ready_to_be_parser_executed` false,
`parser_inserted` true exactly when the constructor was invoked by the
parser, and `non_blocking` true exactly when it was NOT invoked by the
parser. -/
theorem new_inherited_flag_values (creator : ElementCreator) :
    (new_inherited creator).already_started = false ∧
    (new_inherited creator).ready_to_be_parser_executed = false ∧
    (new_inherited creator).parser_inserted = (creator == ElementCreator.ParserCreated) ∧
    (new_inherited creator).non_blocking = (creator != ElementCreator.ParserCreated) := by
  cases creator <;> exact ⟨rfl, rfl, rfl, rfl⟩

/-- C5: the classifier is a total Boolean function of the pair:
`(none, none)` yields true, `(some "", l)` yields true for every `l`,
every member of the legacy allow-list passed as the `type` yields true,
and the non-member `"text/plain"` yields false. -/
theorem is_javascript_totality_cases :
    is_javascript none none = true ∧
    (∀ l, is_javascript (some "") l = true) ∧
    SCRIPT_JS_MIMES.all (fun s => is_javascript (some s) none) = true ∧
    is_javascript (some "text/plain") none = false :=
  ⟨rfl, fun _ => rfl, by decide, by decide⟩

/-- C8: the cloning hook gives the copy an already-started flag equal
to the disjunction of the source element's flag and the copy's own
previous flag — so a clone of an activated element is marked activated,
and a clone of a never-activated element keeps its (constructor-set,
false) flag. -/
theorem cloning_steps_already_started (src_st copy_st : ScriptState) :
    ((cloning_steps src_st copy_st).2).already_started =
      (src_st.already_started || copy_st.already_started) := by
  cases h : src_st.already_started <;>
    simp [cloning_steps, mark_already_started, h]

/-- C10: the cloning hook changes nothing except possibly the copy's
already-started flag: the source element's state is returned unchanged,
and the copy's `parser_inserted`, `non_blocking` and
`ready_to_be_parser_executed` flags keep their previous values whatever
the source element's flags are. -/
theorem cloning_steps_frame (src_st copy_st : ScriptState) :
    (cloning_steps src_st copy_st).1 = src_st ∧
    ((cloning_steps src_st copy_st).2).parser_inserted = copy_st.parser_inserted ∧
    ((cloning_steps src_st copy_st).2).non_blocking = copy_st.non_blocking ∧
    ((cloning_steps src_st copy_st).2).ready_to_be_parser_executed =
      copy_st.ready_to_be_parser_executed := by
  cases h : src_st.already_started <;>
    simp [cloning_steps, mark_already_started, h]

/-- Insertion bookkeeping (steps 2-3) preserves the already-started
flag. -/
lemma afterBookkeeping_already (env : ScriptEnv) (st : ScriptState) :
    (afterBookkeeping env st).already_started = st.already_started := by
  unfold afterBookkeeping
  split <;> rfl

/-- The marking step (step 9) leaves the already-started flag set. -/
lemma afterMark_already (env : ScriptEnv) (st : ScriptState) :
    (afterMark env st).already_started = true := rfl

/-- A run of `prepare` that passes the already-started guard but stops
at the content, detachment or classification guard leaves the state at
the insertion-bookkeeping stage and does not execute. -/
lemma prepare_state_of_stopped (env : ScriptEnv) (c : Collaborators) (st : ScriptState)
    (h0 : st.already_started = false) (hp : passesClassification env = false) :
    (prepare env c st).state = afterBookkeeping env st ∧ (prepare env c st).executed = none := by
  cases hcg : contentGuardStops env
  · cases hin : env.in_doc
    · simp [prepare, h0, hcg, hin]
    · cases hjs : is_javascript env.type_attr env.language_attr
      · simp [prepare, h0, hcg, hin, hjs]
      · exact absurd hp (by simp [passesClassification, hcg, hin, hjs])
  · simp [prepare, h0, hcg]

/-- A run of `prepare` that passes the content, detachment and
classification guards leaves the state at the marked stage (step 9),
whatever the resolution outcome. -/
lemma prepare_state_of_passes (env : ScriptEnv) (c : Collaborators) (st : ScriptState)
    (h0 : st.already_started = false) (hp : passesClassification env = true) :
    (prepare env c st).state = afterMark env st := by
  simp only [passesClassification, Bool.and_eq_true, Bool.not_eq_true'] at hp
  obtain ⟨⟨hcg, hin⟩, hjs⟩ := hp
  cases hsrc : env.src_attr with
  | none => simp [prepare, h0, hcg, hin, hjs, hsrc]
  | some src =>
      cases he : src.isEmpty
      · cases hpu : c.parse_url env.base_url src with
        | none => simp [prepare, h0, hcg, hin, hjs, hsrc, he, hpu]
        | some url =>
            cases hf : c.fetch url with
            | none => simp [prepare, h0, hcg, hin, hjs, hsrc, he, hpu, hf]
            | some fr => simp [prepare, h0, hcg, hin, hjs, hsrc, he, hpu, hf]
      · simp [prepare, h0, hcg, hin, hjs, hsrc, he]

/-- On an already-started element, `prepare` stops at step 1 with no
state change and no execution. -/
lemma prepare_of_already (env : ScriptEnv) (c : Collaborators) (st : ScriptState)
    (h : st.already_started = true) :
    prepare env c st =
      { state := st, executed := none, outcome := ActivationOutcome.AlreadyActivated } := by
  simp [prepare, h]

/-- C1: if a run of `prepare` reaches the execution collaborator, an
immediately following run on the resulting state (same environment and
collaborators) stops at the already-started guard with outcome
AlreadyActivated and does not execute — so two successive runs execute
at most once. -/
theorem prepare_idempotent (env : ScriptEnv) (c : Collaborators) (st : ScriptState)
    (h : ((prepare env c st).executed).isSome = true) :
    (prepare env c (prepare env c st).state).outcome = ActivationOutcome.AlreadyActivated ∧
    (prepare env c (prepare env c st).state).executed = none := by
  have hs : (prepare env c st).state.already_started = true := by
    cases h0 : st.already_started
    · cases hp : passesClassification env
      · obtain ⟨-, hex⟩ := prepare_state_of_stopped env c st h0 hp
        rw [hex] at h
        simp at h
      · rw [prepare_state_of_passes env c st h0 hp]
        exact afterMark_already env st
    · simp [prepare, h0] at h
  rw [prepare_of_already env c _ hs]
  exact ⟨rfl, rfl⟩

/-- C1 witness: on the concrete inline-script environment the first run
executes, and the second run stops at the already-started guard. -/
theorem prepare_idempotent_witness :
    ((prepare envInline collabFail stFresh).executed).isSome = true ∧
    ((prepare envInline collabFail (prepare envInline collabFail stFresh).state).outcome =
        ActivationOutcome.AlreadyActivated ∧
      (prepare envInline collabFail (prepare envInline collabFail stFresh).state).executed =
        none) :=
  ⟨rfl, prepare_idempotent envInline collabFail stFresh rfl⟩

/-- C2: when a run of `prepare` passes all the guards and then fails at
source resolution (empty src value, URL parse failure, or fetch
failure), the execution collaborator is not invoked and the final state
is exactly the state the marking step set — in particular the
already-started flag is true. -/
theorem prepare_resolution_failure (env : ScriptEnv) (c : Collaborators) (st : ScriptState)
    (h0 : st.already_started = false) (hp : passesClassification env = true)
    (src : String) (hsrc : env.src_attr = some src)
    (hfail : src.isEmpty = true ∨ c.parse_url env.base_url src = none ∨
      ∃ url, c.parse_url env.base_url src = some url ∧ c.fetch url = none) :
    (prepare env c st).executed = none ∧
    (prepare env c st).state = afterMark env st ∧
    (prepare env c st).state.already_started = true := by
  simp only [passesClassification, Bool.and_eq_true, Bool.not_eq_true'] at hp
  obtain ⟨⟨hcg, hin⟩, hjs⟩ := hp
  rcases hfail with he | hpu | ⟨url, hpu, hf⟩
  · simp [prepare, h0, hcg, hin, hjs, hsrc, he, afterMark_already]
  · cases he : src.isEmpty
    · simp [prepare, h0, hcg, hin, hjs, hsrc, he, hpu, afterMark_already]
    · simp [prepare, h0, hcg, hin, hjs, hsrc, he, afterMark_already]
  · cases he : src.isEmpty
    · simp [prepare, h0, hcg, hin, hjs, hsrc, he, hpu, hf, afterMark_already]
    · simp [prepare, h0, hcg, hin, hjs, hsrc, he, afterMark_already]

/-- C2 witness: concrete external-script environment whose URL parser
fails; the run does not execute and leaves the marked state. -/
theorem prepare_resolution_failure_witness :
    (prepare envSrc collabFail stFresh).executed = none ∧
    (prepare envSrc collabFail stFresh).state = afterMark envSrc stFresh ∧
    (prepare envSrc collabFail stFresh).state.already_started = true :=
  prepare_resolution_failure envSrc collabFail stFresh rfl rfl "foo.js" rfl
    (Or.inr (Or.inl rfl))

/-- C6: for a run of `prepare` past the already-started guard, the
final parser-inserted flag is the initial one AND-ed with passing the
classification guard (read-then-clear at step 2, restored at step 8
exactly when the element was parser-inserted and the run passes
classification; any run stopping at the content, detachment or
classification guard leaves it cleared), and the final non-blocking
flag is false when a parser-inserted run passes classification, true
when a parser-inserted element with an async attribute stops at a
guard, and unchanged otherwise. -/
theorem prepare_insertion_bookkeeping (env : ScriptEnv) (c : Collaborators) (st : ScriptState)
    (h0 : st.already_started = false) :
    (prepare env c st).state.parser_inserted = (st.parser_inserted && passesClassification env) ∧
    (prepare env c st).state.non_blocking =
      (if st.parser_inserted && passesClassification env then false
       else if st.parser_inserted && env.async_attr then true
       else st.non_blocking) := by
  cases hp : passesClassification env
  · obtain ⟨hstate, -⟩ := prepare_state_of_stopped env c st h0 hp
    rw [hstate]
    cases hpi : st.parser_inserted <;> cases ha : env.async_attr <;>
      simp [afterBookkeeping, hpi, ha, hp]
  · rw [prepare_state_of_passes env c st h0 hp]
    cases hpi : st.parser_inserted <;>
      simp [afterMark, afterRestore, afterBookkeeping, hpi, hp]

/-- C6 witness: a parser-created element with an async attribute and no
content stops at the content guard with parser-inserted cleared and
non-blocking set. -/
theorem prepare_insertion_bookkeeping_witness :
    (prepare envEmptyAsync collabFail stParserMade).state.parser_inserted =
      (stParserMade.parser_inserted && passesClassification envEmptyAsync) ∧
    (prepare envEmptyAsync collabFail stParserMade).state.non_blocking =
      (if stParserMade.parser_inserted && passesClassification envEmptyAsync then false
       else if stParserMade.parser_inserted && envEmptyAsync.async_attr then true
       else stParserMade.non_blocking) :=
  prepare_insertion_bookkeeping envEmptyAsync collabFail stParserMade rfl

/-- C7: source resolution in `prepare` on a run that passes all guards:
a present non-empty `src` that parses and fetches successfully makes
execution receive the decoded payload and the fetch's final URL (src
takes precedence over inline text); a present-but-empty `src` stops the
run with NoContent, without execution and without ever invoking the
fetch collaborator (the result is the same for any two fetch
functions); an absent `src` makes execution receive the inline text
verbatim with the document base URL. -/
theorem prepare_source_resolution (env : ScriptEnv) (c : Collaborators) (st : ScriptState)
    (h0 : st.already_started = false) (hp : passesClassification env = true) :
    (∀ src, env.src_attr = some src → src.isEmpty = false →
      ∀ url final_url bytes, c.parse_url env.base_url src = some url →
        c.fetch url = some (final_url, bytes) →
        (prepare env c st).executed = some (c.decode bytes, final_url) ∧
        (prepare env c st).outcome = ActivationOutcome.Activated) ∧
    (env.src_attr = some "" →
      (prepare env c st).executed = none ∧
      (prepare env c st).outcome = ActivationOutcome.NoContent ∧
      ∀ f g : String → Option (String × List Nat),
        prepare env { c with fetch := f } st = prepare env { c with fetch := g } st) ∧
    (env.src_attr = none →
      (prepare env c st).executed = some (env.text, env.base_url) ∧
      (prepare env c st).outcome = ActivationOutcome.Activated) := by
  simp only [passesClassification, Bool.and_eq_true, Bool.not_eq_true'] at hp
  obtain ⟨⟨hcg, hin⟩, hjs⟩ := hp
  refine ⟨?_, ?_, ?_⟩
  · intro src hsrc he url fu bytes hpu hf
    constructor <;> simp [prepare, h0, hcg, hin, hjs, hsrc, he, hpu, hf]
  · intro hsrc
    have hemp : "".isEmpty = true := rfl
    refine ⟨?_, ?_, fun f g => ?_⟩ <;>
      simp [prepare, h0, hcg, hin, hjs, hsrc, hemp]
  · intro hsrc
    constructor <;> simp [prepare, h0, hcg, hin, hjs, hsrc]

/-- C7 witness: the external script "foo.js" resolves against the base
URL and execution receives the decoded fetched bytes ("alert") with the
fetch's final URL. -/
theorem prepare_source_resolution_witness :
    (prepare envSrc collabOk stFresh).executed =
      some ("alert", "http://example.test/page/foo.js") ∧
    (prepare envSrc collabOk stFresh).outcome = ActivationOutcome.Activated :=
  (prepare_source_resolution envSrc collabOk stFresh rfl rfl).1 "foo.js" rfl rfl
    "http://example.test/page/foo.js" "http://example.test/page/foo.js"
    [97, 108, 101, 114, 116] rfl rfl

/-- C9: a never-started element that is not in a document never
executes and is left with already-started false, whatever its text,
type and attributes; when the content guard does not already stop the
run (non-empty text or a src present), the run stops exactly at the
detachment guard. -/
theorem prepare_detached (env : ScriptEnv) (c : Collaborators) (st : ScriptState)
    (h1 : env.in_doc = false) (h2 : st.already_started = false) :
    (prepare env c st).executed = none ∧
    (prepare env c st).state.already_started = false ∧
    (contentGuardStops env = false →
      (prepare env c st).outcome = ActivationOutcome.DetachedFromDocument) := by
  cases hcg : contentGuardStops env
  · refine ⟨?_, ?_, fun _ => ?_⟩ <;>
      simp [prepare, h2, hcg, h1, afterBookkeeping_already]
  · refine ⟨?_, ?_, fun hc => ?_⟩
    · simp [prepare, h2, hcg]
    · simp [prepare, h2, hcg, afterBookkeeping_already]
    · exact absurd hc (by simp [hcg])

/-- C9 witness: a detached element with non-empty inline text and an
executable type stops at the detachment guard, never executing and
leaving already-started false. -/
theorem prepare_detached_witness :
    (prepare envDetached collabFail stFresh).executed = none ∧
    (prepare envDetached collabFail stFresh).state.already_started = false ∧
    (prepare envDetached collabFail stFresh).outcome =
      ActivationOutcome.DetachedFromDocument :=
  ⟨(prepare_detached envDetached collabFail stFresh rfl rfl).1,
    (prepare_detached envDetached collabFail stFresh rfl rfl).2.1,
    (prepare_detached envDetached collabFail stFresh rfl rfl).2.2 rfl⟩
